import Mathlib

/-!
Verification development for the audio monitoring core of the bip-pi
repository (`src/awareness/audio_monitoring.py`).

The Python code is shallowly embedded: audio frames are lists of rational
samples, wall-clock times and durations are rationals, and every fallible
operation (file writes, codec conversion, model inference) is represented
by an explicit outcome parameter, so that each embedded function is a total
computable Lean function mirroring the control flow of its Python source.

Floating-point subtlety: `audio_callback` computes
`volume_norm = np.linalg.norm(indata) / np.sqrt(len(indata))` on IEEE
doubles.  For a nonempty frame this is the root-mean-square of the samples,
a nonnegative real; for the empty frame it is `0.0 / 0.0 = NaN` (numpy
scalar division does not raise).  We embed the SQUARE of the volume, which
is rational (`sum of squares / length`), together with an explicit `nan`
constructor for the empty-frame case.  All threshold comparisons in the
source compare nonnegative quantities, and `x > t ↔ x^2 > t^2` for
`x, t ≥ 0`, so configuration thresholds are stored squared; IEEE semantics
make every comparison against NaN false, which `ampGt` reflects.
-/

namespace AudioMonitor

/-- An audio frame: the samples of one capture block (mono, so the
channel dimension is flattened away). -/
abbrev Frame := List ℚ

/-- Result of the volume computation `norm(indata)/sqrt(len(indata))`,
represented squared.  `nan` is the IEEE `0.0/0.0` produced on an empty
frame. -/
inductive Amplitude where
  | nan : Amplitude
  | val : ℚ → Amplitude
deriving DecidableEq

/-- Squared volume of a frame, from `audio_callback` line 130:
`np.linalg.norm(indata) / np.sqrt(len(indata))`, i.e. the RMS of the
samples.  Squared: `(Σ sᵢ²) / n`; the empty frame divides `0.0` by `0.0`,
which is NaN on IEEE doubles (no exception is raised). -/
def volumeNormSq (frame : Frame) : Amplitude :=
  if frame.length = 0 then .nan
  else .val ((frame.map (fun s => s * s)).sum / (frame.length : ℚ))

/-- Strict comparison of a (squared) amplitude against a (squared)
threshold, with the IEEE rule that any comparison against NaN is false. -/
def ampGt (a : Amplitude) (t : ℚ) : Bool :=
  match a with
  | .nan => false
  | .val q => decide (t < q)

/-- Configuration attributes hardcoded by `AudioMonitor.__init__`
(lines 54-67).  Thresholds are stored squared (see the module comment). -/
structure Config where
  sampleRate : ℚ
  thresholdSq : ℚ
  silenceThresholdSq : ℚ
  minRecordTime : ℚ
  silenceLimit : ℚ
  bufferCapacity : ℕ
  maxRecordings : ℕ
deriving DecidableEq

/-- The constants from `__init__`: sample_rate 16000, threshold 0.02
(squared: 1/2500), silence_threshold 0.01 (squared: 1/10000),
min_record_time 10, silence_limit 2.0, pre-buffer capacity
`int(buffer_seconds * sample_rate)` = 16000 samples, max_recordings 6. -/
def defaultConfig : Config :=
  { sampleRate := 16000
    thresholdSq := 1/2500
    silenceThresholdSq := 1/10000
    minRecordTime := 10
    silenceLimit := 2
    bufferCapacity := 16000
    maxRecordings := 6 }

/-- One push into the pre-roll deque (`collections.deque(maxlen=cap)` of
single samples): when full, the oldest sample is dropped first. -/
def ringPush (cap : ℕ) (buf : List ℚ) (s : ℚ) : List ℚ :=
  if cap = 0 then buf
  else if buf.length < cap then buf ++ [s]
  else buf.tail ++ [s]

/-- Embedding of `self.pre_buffer.extend(indata.copy())` from `audio_callback` line 133:
push each sample of the frame in order. -/
def ringExtend (cap : ℕ) (buf : List ℚ) (frame : Frame) : List ℚ :=
  frame.foldl (ringPush cap) buf

/-- Result of one `audio_callback` invocation in LISTENING mode. -/
structure TriggerResult where
  preBuffer : List ℚ
  recordedChunks : List Frame
  isRecording : Bool
  workerStarted : Bool
deriving DecidableEq

/-- Embedding of `audio_callback` (lines 129-164) in LISTENING mode
(`is_recording = False`): the pre-buffer is always extended with the
frame's samples (line 133, BEFORE the trigger check); if the volume
exceeds the threshold, `is_recording` is set, a recording worker thread
is started, and the pre-buffer contents (which already include the
triggering frame's samples) are appended to `recorded_chunks` one sample
per chunk (lines 163-164). -/
def audioCallbackListening (cfg : Config) (pre : List ℚ) (chunks : List Frame)
    (frame : Frame) : TriggerResult :=
  let pre' := ringExtend cfg.bufferCapacity pre frame
  if ampGt (volumeNormSq frame) cfg.thresholdSq then
    { preBuffer := pre'
      recordedChunks := chunks ++ pre'.map (fun s => [s])
      isRecording := true
      workerStarted := true }
  else
    { preBuffer := pre'
      recordedChunks := chunks
      isRecording := false
      workerStarted := false }

/-- Flatten a chunk list to its underlying sample sequence
(`np.concatenate(self.recorded_chunks)` viewed as sample contents). -/
def flattenChunks (cs : List Frame) : List ℚ :=
  cs.flatten

/-- One observation made by an iteration of `_recording_worker`'s loop
(lines 181-217): the monotonic clock value, the snapshot of
`recorded_chunks`, and the `is_recording` flag read at the top of the
loop. -/
structure Poll where
  now : ℚ
  chunks : List Frame
  recordingFlag : Bool

/-- How `_recording_worker` leaves its polling loop: a normal `break`
carrying `elapsed` and `elapsed_since_sound` at the stopping iteration
(lines 208-214), an exit because `is_recording` was cleared externally
(forced stop, line 181), or the supplied observation trace ran out with
the loop still running. -/
inductive WorkerOutcome where
  | normalStop (elapsed silenceElapsed : ℚ) : WorkerOutcome
  | forcedExit : WorkerOutcome
  | fuelOut : WorkerOutcome
deriving DecidableEq

/-- The `last_sound` update of one worker iteration (lines 195-197): it is
moved to the current time exactly when the LAST recorded chunk is louder
than the silence threshold. -/
def lastSoundUpd (cfg : Config) (lastSound now : ℚ) (chunk : Frame) : ℚ :=
  if ampGt (volumeNormSq chunk) cfg.silenceThresholdSq then now else lastSound

/-- The polling loop of `_recording_worker` (lines 181-217), driven by a
finite trace of observations.  Each iteration: exit if `is_recording` is
false; skip if `recorded_chunks` is empty (lines 182-184); otherwise
compute the last chunk's volume, update `last_sound`, and `break` iff
`elapsed >= min_record_time and elapsed_since_sound >= silence_limit`
(lines 207-214). -/
def recordingWorkerLoop (cfg : Config) (recordStart lastSound : ℚ) :
    List Poll → WorkerOutcome
  | [] => .fuelOut
  | p :: rest =>
    if p.recordingFlag = false then .forcedExit
    else
      match p.chunks.getLast? with
      | none => recordingWorkerLoop cfg recordStart lastSound rest
      | some chunk =>
        if cfg.minRecordTime ≤ p.now - recordStart ∧
            cfg.silenceLimit ≤ p.now - lastSoundUpd cfg lastSound p.now chunk then
          .normalStop (p.now - recordStart)
            (p.now - lastSoundUpd cfg lastSound p.now chunk)
        else
          recordingWorkerLoop cfg recordStart
            (lastSoundUpd cfg lastSound p.now chunk) rest

/-- The retention deque `previous_recordings`, created by `__init__` as
`collections.deque(maxlen=self.max_recordings)` (line 73): `maxlen` is
fixed at construction. -/
structure Retention where
  maxlen : ℕ
  entries : List String
deriving DecidableEq

/-- Embedding of `deque.append` with a `maxlen`: when the deque is full the OLDEST
entry (head) is silently discarded to make room; a `maxlen` of zero keeps
the deque empty. -/
def dequeAppend (r : Retention) (p : String) : Retention :=
  if r.entries.length < r.maxlen then { r with entries := r.entries ++ [p] }
  else if r.maxlen = 0 then r
  else { r with entries := r.entries.tail ++ [p] }

/-- Embedding of `cleanup_old_recordings` (lines 286-294): while the entry count
exceeds `max_recordings`, pop the oldest entry and attempt to delete its
file (`os.unlink`, failures logged and tolerated).  Returns the remaining
entries and the list of paths whose deletion was attempted, oldest
first. -/
def cleanupOldRecordings (maxRecordings : ℕ) :
    List String → List String × List String
  | [] => ([], [])
  | old :: rest =>
    if maxRecordings < (old :: rest).length then
      let p := cleanupOldRecordings maxRecordings rest
      (p.1, old :: p.2)
    else (old :: rest, [])

/-- Outcomes of the fallible operations performed by `save_recording` and
its callees, passed in explicitly: `tempOk` is the
`tempfile.NamedTemporaryFile` creation at lines 235-236 (OUTSIDE the
`try`, so its failure propagates to the caller), `writeOk` is the
`sf.write` WAV write (lines 242-248), `convertOk` is the
pydub WAV→MP3 conversion and export (lines 255-256), `modelLoaded` is
whether `__init__` managed to load the Whisper model, `transcriptResult`
is the value `transcribe_recording` would return (already
exception-free), and `callbackRegistered` is whether
`on_recording_complete` is set to a callable. -/
structure SaveEnv where
  tempOk : Bool
  writeOk : Bool
  convertOk : Bool
  modelLoaded : Bool
  transcriptResult : Option String
  callbackRegistered : Bool
deriving DecidableEq

/-- The monitor's mutable state relevant to the flush path. -/
structure MonitorState where
  recordedChunks : List Frame
  store : Retention
  isRecording : Bool
deriving DecidableEq

/-- Observable effects of one `save_recording` call: whether an MP3 was
persisted and appended to `previous_recordings`, the duration in seconds
of the audio written (sample count / sample rate), which old files had
deletion attempted, and whether/with what transcript the completion
callback ran. -/
structure SaveEvents where
  persisted : Bool
  duration : ℚ
  deletions : List String
  callbackInvoked : Bool
  callbackTranscript : Option String
deriving DecidableEq

/-- The events of a `save_recording` call that persisted nothing. -/
def noEvents : SaveEvents :=
  { persisted := false
    duration := 0
    deletions := []
    callbackInvoked := false
    callbackTranscript := none }

/-- Embedding of `save_recording` (lines 228-284).  Control flow: empty
`recorded_chunks` → log and return immediately (lines 230-232); temp-file
creation failure → exception propagates (it happens before the `try`);
inside the `try`, a WAV-write or MP3-conversion failure is caught at
line 274 and the function still returns after resetting
`recorded_chunks` (line 284); on success the MP3 path is appended to
`previous_recordings`, `cleanup_old_recordings` runs, transcription runs
when the model loaded, the completion callback is invoked when
registered, and `recorded_chunks` is reset. -/
def saveRecording (cfg : Config) (env : SaveEnv) (path : String)
    (st : MonitorState) : Except Unit (MonitorState × SaveEvents) :=
  if st.recordedChunks.isEmpty then .ok (st, noEvents)
  else if env.tempOk = false then .error ()
  else if env.writeOk && env.convertOk then
    let store1 := dequeAppend st.store path
    let cl := cleanupOldRecordings cfg.maxRecordings store1.entries
    let transcript := if env.modelLoaded then env.transcriptResult else none
    .ok ({ st with recordedChunks := [], store := { store1 with entries := cl.1 } },
         { persisted := true
           duration := ((flattenChunks st.recordedChunks).length : ℚ) / cfg.sampleRate
           deletions := cl.2
           callbackInvoked := env.callbackRegistered
           callbackTranscript := transcript })
  else .ok ({ st with recordedChunks := [] }, noEvents)

/-- The tail of `_recording_worker` (lines 219-226): after the loop it
calls `save_recording`, catches any exception it raises (line 222), and
in the `finally` clears `is_recording`, returning the monitor to
LISTENING mode. -/
def workerFinalize (cfg : Config) (env : SaveEnv) (path : String)
    (st : MonitorState) : MonitorState × SaveEvents :=
  match saveRecording cfg env path st with
  | .ok (st1, ev) => ({ st1 with isRecording := false }, ev)
  | .error _ => ({ st with isRecording := false }, noEvents)

/-- A whole `_recording_worker` run: the polling loop followed (on either
normal stop or forced exit) by the flush-and-finalize tail.  On `fuelOut`
the loop is still running and no flush has happened yet. -/
structure RunResult where
  state : MonitorState
  events : SaveEvents
  outcome : WorkerOutcome
deriving DecidableEq

/-- Embedding of `_recording_worker` (lines 166-226) end to end over an observation
trace. -/
def recordingWorkerRun (cfg : Config) (recordStart lastSound : ℚ)
    (polls : List Poll) (env : SaveEnv) (path : String)
    (st : MonitorState) : RunResult :=
  match recordingWorkerLoop cfg recordStart lastSound polls with
  | .fuelOut => ⟨st, noEvents, .fuelOut⟩
  | .forcedExit =>
    let r := workerFinalize cfg env path st
    ⟨r.1, r.2, .forcedExit⟩
  | .normalStop e s =>
    let r := workerFinalize cfg env path st
    ⟨r.1, r.2, .normalStop e s⟩

/-- One transcription segment as yielded by the Whisper model. -/
structure Segment where
  startTime : ℚ
  endTime : ℚ
  text : String
deriving DecidableEq

/-- Outcomes of the fallible operations inside `transcribe_recording`:
`modelResult` is the `self.model.transcribe` call plus the segment
iteration (any exception, including `self.model` being `None`, is an
error), `fileWriteOk` is the transcript sidecar open/write. -/
structure TranscribeEnv where
  modelResult : Except Unit (List Segment)
  fileWriteOk : Bool

/-- The `full_transcript` accumulation of lines 322-328: each segment's text
followed by a space, concatenated in order. -/
def fullTranscript (segs : List Segment) : String :=
  segs.foldl (fun acc s => acc ++ s.text ++ " ") ""

/-- Embedding of `transcribe_recording` (lines 296-335): the whole body sits in a
`try` whose `except` returns `None` (lines 333-335), so a model failure
or a sidecar-write failure yields `none`; on success the stripped
concatenated transcript is returned (line 331). -/
def transcribeRecording (env : TranscribeEnv) : Option String :=
  match env.modelResult with
  | .error _ => none
  | .ok segs => if env.fileWriteOk then some (fullTranscript segs).trim else none

/-- The internal-failure predicate for `transcribe_recording`: either the
model call/iteration raised, or writing the sidecar transcript raised. -/
def transcribeFails (env : TranscribeEnv) : Prop :=
  (∃ e, env.modelResult = .error e) ∨ env.fileWriteOk = false

/-- Embedding of `AudioMonitor.__init__` (lines 43-97): takes no threshold or duration
parameters — every such setting is the hardcoded constant of
`defaultConfig` — and performs no validation; even a Whisper-model load
failure is caught at lines 95-97 (`self.model = None`), so construction
never fails for configuration reasons.  The `Bool` argument is the model
load outcome. -/
def audioMonitorInit (modelLoadOk : Bool) : Except Unit (Config × Bool) :=
  .ok (defaultConfig, modelLoadOk)

/-- Values of the audio section a loaded configuration file may override
in `AwarenessConfig` (`src/awareness/config.py`). -/
structure AwOverrides where
  amplitudeThreshold : Option ℤ
  recordSeconds : Option ℤ
deriving DecidableEq

/-- The audio knobs of `AwarenessConfig.DEFAULT_CONFIG` relevant here. -/
structure AwAudioCfg where
  amplitudeThreshold : ℤ
  recordSeconds : ℤ
deriving DecidableEq

/-- The values of `DEFAULT_CONFIG["audio"]`: amplitude_threshold 1000, record_seconds 5. -/
def awDefault : AwAudioCfg :=
  { amplitudeThreshold := 1000, recordSeconds := 5 }

/-- Embedding of `AwarenessConfig.__init__` (config.py lines 40-61): start from the
defaults; if a configuration file is present and loads, shallow-merge its
values with NO validation; if loading raises, the exception is caught and
printed and the defaults stand.  The constructor itself never raises. -/
def awarenessConfigInit (loaded : Option (Except Unit AwOverrides)) :
    Except Unit AwAudioCfg :=
  match loaded with
  | none => .ok awDefault
  | some (.error _) => .ok awDefault
  | some (.ok o) =>
    .ok { amplitudeThreshold := o.amplitudeThreshold.getD awDefault.amplitudeThreshold
          recordSeconds := o.recordSeconds.getD awDefault.recordSeconds }

/-- A mutation of the retention store as performed on the worker thread:
a `deque.append` of a new recording's path, or a `cleanup_old_recordings`
pass. -/
inductive StoreOp where
  | append (p : String) : StoreOp
  | cleanup : StoreOp

/-- Apply one store mutation; `m` is `self.max_recordings`.  Returns the
new store and the deletion attempts made. -/
def applyStoreOp (m : ℕ) (st : Retention) : StoreOp → Retention × List String
  | .append p => (dequeAppend st p, [])
  | .cleanup =>
    let c := cleanupOldRecordings m st.entries
    ({ st with entries := c.1 }, c.2)

/-- Run a sequence of store mutations from the freshly-constructed store
(`deque(maxlen=max_recordings)`, empty), as `__init__` creates it with
`maxlen` and `max_recordings` both equal to `m`. -/
def applyStoreOps (m : ℕ) (ops : List StoreOp) : Retention :=
  ops.foldl (fun st op => (applyStoreOp m st op).1) ⟨m, []⟩

/-- Whether a construction attempt succeeded. -/
def exceptIsOk {ε α : Type} : Except ε α → Bool
  | .ok _ => true
  | .error _ => false

/-- Scenario B of the spec: `max_recordings = 2`, everything else at the
defaults.  As in `__init__`, the deque is created with
`maxlen = max_recordings`. -/
def scenarioBConfig : Config :=
  { defaultConfig with maxRecordings := 2 }

/-- Environment for Scenario B cycles: all persistence operations
succeed; transcription is irrelevant; the completion callback is
registered. -/
def scenarioBEnv : SaveEnv :=
  { tempOk := true
    writeOk := true
    convertOk := true
    modelLoaded := false
    transcriptResult := none
    callbackRegistered := true }

/-- One completed trigger→record→complete cycle of Scenario B, reduced to
its flush: the monitor has accumulated some audio (one chunk here) and
the worker flushes it to `path`. -/
def scenarioBCycle (st : MonitorState) (path : String) : MonitorState × SaveEvents :=
  workerFinalize scenarioBConfig scenarioBEnv path
    { st with recordedChunks := [[1]], isRecording := true }

/-- The freshly-constructed monitor state of Scenario B:
`recorded_chunks = []`, `previous_recordings = deque(maxlen=2)` empty,
not recording. -/
def scenarioBInit : MonitorState :=
  { recordedChunks := [], store := ⟨2, []⟩, isRecording := false }

/-! Helper lemmas. -/

lemma ringPush_of_lt {cap : ℕ} {buf : List ℚ} (s : ℚ) (h : buf.length < cap) :
    ringPush cap buf s = buf ++ [s] := by
  have hc : cap ≠ 0 := by omega
  simp [ringPush, hc, h]

lemma ringExtend_of_le {cap : ℕ} : ∀ (f : Frame) (buf : List ℚ),
    buf.length + f.length ≤ cap → ringExtend cap buf f = buf ++ f
  | [], buf, _ => by simp [ringExtend]
  | s :: t, buf, h => by
    have h1 : buf.length < cap := by
      simp only [List.length_cons] at h; omega
    have h2 : (buf ++ [s]).length + t.length ≤ cap := by
      simp only [List.length_append, List.length_singleton, List.length_cons,
        List.length_nil] at h ⊢
      omega
    calc ringExtend cap buf (s :: t)
        = ringExtend cap (ringPush cap buf s) t := rfl
      _ = ringExtend cap (buf ++ [s]) t := by rw [ringPush_of_lt s h1]
      _ = (buf ++ [s]) ++ t := ringExtend_of_le t (buf ++ [s]) h2
      _ = buf ++ (s :: t) := by simp

lemma flatten_map_singleton (l : List ℚ) : (l.map (fun s => [s])).flatten = l := by
  induction l with
  | nil => rfl
  | cons a t ih => simp [ih]

lemma flattenChunks_append_singletons (chunks : List Frame) (l : List ℚ) :
    flattenChunks (chunks ++ l.map (fun s => [s])) = flattenChunks chunks ++ l := by
  simp [flattenChunks, flatten_map_singleton]

lemma workerLoop_normalStop_bounds {cfg : Config} {rs : ℚ} :
    ∀ (polls : List Poll) (ls e s : ℚ),
      recordingWorkerLoop cfg rs ls polls = .normalStop e s →
      cfg.minRecordTime ≤ e ∧ cfg.silenceLimit ≤ s := by
  intro polls
  induction polls with
  | nil => intro ls e s h; simp [recordingWorkerLoop] at h
  | cons p rest ih =>
    intro ls e s h
    rw [recordingWorkerLoop] at h
    split at h
    · exact absurd h (by simp)
    · split at h
      · exact ih _ _ _ h
      · split at h
        · rename_i hcond
          cases h
          exact hcond
        · exact ih _ _ _ h

lemma cleanupOldRecordings_of_le {m : ℕ} {l : List String} (h : l.length ≤ m) :
    cleanupOldRecordings m l = (l, []) := by
  cases l with
  | nil => rfl
  | cons a t =>
    simp [cleanupOldRecordings]
    simp only [List.length_cons] at h
    omega

lemma dequeAppend_maxlen (r : Retention) (p : String) :
    (dequeAppend r p).maxlen = r.maxlen := by
  unfold dequeAppend
  split
  · rfl
  · split <;> rfl

lemma workerLoop_stops_now {cfg : Config} {rs ls : ℚ} {p : Poll}
    {rest : List Poll} {chunk : Frame}
    (hf : p.recordingFlag = true) (hl : p.chunks.getLast? = some chunk)
    (hmin : cfg.minRecordTime ≤ p.now - rs)
    (hsil : cfg.silenceLimit ≤ p.now - lastSoundUpd cfg ls p.now chunk) :
    recordingWorkerLoop cfg rs ls (p :: rest) =
      .normalStop (p.now - rs) (p.now - lastSoundUpd cfg ls p.now chunk) := by
  rw [recordingWorkerLoop]
  rw [if_neg (by rw [hf]; simp)]
  rw [hl]
  exact if_pos ⟨hmin, hsil⟩

lemma dequeAppend_length_le {r : Retention} (p : String)
    (h : r.entries.length ≤ r.maxlen) :
    (dequeAppend r p).entries.length ≤ r.maxlen := by
  unfold dequeAppend
  split
  · rename_i hlt
    simp only [List.length_append, List.length_singleton]
    omega
  · split
    · exact h
    · rename_i hnlt h0
      simp only [List.length_append, List.length_singleton, List.length_tail]
      omega

/-! Claim theorems. -/

/-- C1: the claim says that appending beyond `max_recordings` removes the
oldest entry AND attempts deletion of its backing audio file, and that in
Scenario B (`max_recordings = 2`, three completed cycles) the first
cycle's file is deleted from disk.  The code violates this: because
`previous_recordings` is a `deque(maxlen=max_recordings)`, the append
itself silently discards the oldest entry, the guard
`len(previous_recordings) > max_recordings` in `cleanup_old_recordings`
is never true, and `os.unlink` is never reached.  This theorem evaluates
the three cycles: the store does hold exactly `["r2", "r3"]`, but the set
of attempted file deletions is empty in every cycle — the first cycle's
file is never deleted. -/
theorem c1_eviction_never_attempts_deletion :
    (scenarioBCycle scenarioBInit "r1").2.persisted = true ∧
    (scenarioBCycle (scenarioBCycle scenarioBInit "r1").1 "r2").2.persisted = true ∧
    (scenarioBCycle (scenarioBCycle (scenarioBCycle scenarioBInit "r1").1 "r2").1
        "r3").2.persisted = true ∧
    (scenarioBCycle (scenarioBCycle (scenarioBCycle scenarioBInit "r1").1 "r2").1
        "r3").1.store.entries = ["r2", "r3"] ∧
    (scenarioBCycle scenarioBInit "r1").2.deletions = [] ∧
    (scenarioBCycle (scenarioBCycle scenarioBInit "r1").1 "r2").2.deletions = [] ∧
    (scenarioBCycle (scenarioBCycle (scenarioBCycle scenarioBInit "r1").1 "r2").1
        "r3").2.deletions = [] := by
  decide

/-- C2 counterexample: a forced stop (the worker observes
`is_recording = false`, as `start_monitoring`'s `finally` sets it) at
3 seconds with one accumulated 1-sample chunk still persists a recording,
whose duration `1/16000 s` is far below `min_record_time = 10 s` — so
"every persisted recording has duration ≥ min_record_time, including the
forced-stop path" is false on the code. -/
theorem c2_counterexample_forced_stop_persists_short :
    (recordingWorkerRun defaultConfig 0 0 [⟨3, [[1]], false⟩]
        ⟨true, true, true, true, none, true⟩ "r" ⟨[[1]], ⟨6, []⟩, true⟩).outcome
      = .forcedExit ∧
    (recordingWorkerRun defaultConfig 0 0 [⟨3, [[1]], false⟩]
        ⟨true, true, true, true, none, true⟩ "r" ⟨[[1]], ⟨6, []⟩, true⟩).events.persisted
      = true ∧
    (recordingWorkerRun defaultConfig 0 0 [⟨3, [[1]], false⟩]
        ⟨true, true, true, true, none, true⟩ "r" ⟨[[1]], ⟨6, []⟩, true⟩).events.duration
      < defaultConfig.minRecordTime := by
  refine ⟨rfl, rfl, ?_⟩
  show ((1 : ℕ) : ℚ) / 16000 < 10
  norm_num

/-- C2 amended: recordings persisted through the worker's NORMAL
(silence-gated) termination have elapsed recording time at least
`min_record_time`; but recordings finalized by the forced-stop path are
persisted regardless of their duration — the accumulated audio is flushed
rather than discarded, so the universal minimum-duration guarantee holds
only for normal terminations. -/
theorem c2_amended_min_duration :
    (∀ (cfg : Config) (rs ls : ℚ) (polls : List Poll) (env : SaveEnv)
        (path : String) (st : MonitorState) (e s : ℚ),
        (recordingWorkerRun cfg rs ls polls env path st).outcome = .normalStop e s →
        cfg.minRecordTime ≤ e) ∧
    (∀ (cfg : Config) (env : SaveEnv) (path : String) (st : MonitorState),
        st.recordedChunks ≠ [] → env.tempOk = true → env.writeOk = true →
        env.convertOk = true →
        (workerFinalize cfg env path st).2.persisted = true ∧
        (workerFinalize cfg env path st).1.isRecording = false) := by
  constructor
  · intro cfg rs ls polls env path st e s h
    unfold recordingWorkerRun at h
    cases hl : recordingWorkerLoop cfg rs ls polls with
    | fuelOut => rw [hl] at h; simp at h
    | forcedExit => rw [hl] at h; simp at h
    | normalStop e1 s1 =>
      rw [hl] at h
      simp only [WorkerOutcome.normalStop.injEq] at h
      obtain ⟨he, _⟩ := h
      rw [← he]
      exact (workerLoop_normalStop_bounds polls ls e1 s1 hl).1
  · intro cfg env path st hne ht hw hc
    have hne2 : st.recordedChunks.isEmpty = false := by
      cases hx : st.recordedChunks with
      | nil => exact absurd hx hne
      | cons a t => rfl
    simp [workerFinalize, saveRecording, hne2, ht, hw, hc]

/-- Witness for the amended C2: a worker that stops normally at exactly
`elapsed = 10 s` satisfies the minimum-duration bound, and a concrete
non-empty forced-stop flush is persisted. -/
theorem c2_amended_min_duration_witness :
    defaultConfig.minRecordTime ≤ 10 - 0 ∧
    (workerFinalize defaultConfig ⟨true, true, true, false, none, false⟩ "w"
        ⟨[[1]], ⟨6, []⟩, true⟩).2.persisted = true := by
  constructor
  · apply c2_amended_min_duration.1 defaultConfig 0 (-2) [⟨10, [[0]], true⟩]
      ⟨true, true, true, false, none, false⟩ "w" ⟨[[1]], ⟨6, []⟩, true⟩
      (10 - 0) (10 - lastSoundUpd defaultConfig (-2) 10 [0])
    show (recordingWorkerRun defaultConfig 0 (-2) [⟨10, [[0]], true⟩]
        ⟨true, true, true, false, none, false⟩ "w" ⟨[[1]], ⟨6, []⟩, true⟩).outcome
      = .normalStop (10 - 0) (10 - lastSoundUpd defaultConfig (-2) 10 [0])
    have hloop : recordingWorkerLoop defaultConfig 0 (-2) [⟨10, [[0]], true⟩] =
        .normalStop (10 - 0) (10 - lastSoundUpd defaultConfig (-2) 10 [0]) := by
      apply @workerLoop_stops_now defaultConfig 0 (-2) ⟨10, [[0]], true⟩ [] [0] rfl rfl
      · show defaultConfig.minRecordTime ≤ 10 - 0
        norm_num [defaultConfig]
      · show defaultConfig.silenceLimit ≤ 10 - lastSoundUpd defaultConfig (-2) 10 [0]
        have : lastSoundUpd defaultConfig (-2) 10 [0] = -2 := by
          simp [lastSoundUpd, ampGt, volumeNormSq, defaultConfig]
        rw [this]
        norm_num [defaultConfig]
    unfold recordingWorkerRun
    rw [hloop]
  · exact (c2_amended_min_duration.2 defaultConfig
      ⟨true, true, true, false, none, false⟩ "w" ⟨[[1]], ⟨6, []⟩, true⟩
      (by simp) rfl rfl rfl).1

/-- C3: while a session is active and no forced stop occurs, the worker
stops the recording iff `elapsed ≥ min_record_time` and
`elapsed_since_sound ≥ silence_limit`, both inclusive.  Soundness:
whatever the observation trace (flags all true, i.e. no forced stop), a
normal stop reports `elapsed ≥ min_record_time` and
`silence_elapsed ≥ silence_limit`, so the worker never stops early.
Completeness: at any iteration with an active flag and a non-empty chunk
list whose updated timers satisfy both inclusive comparisons, the worker
stops immediately with exactly those timer values. -/
theorem c3_termination_iff :
    (∀ (cfg : Config) (rs ls e s : ℚ) (polls : List Poll),
        (∀ p ∈ polls, p.recordingFlag = true) →
        recordingWorkerLoop cfg rs ls polls = .normalStop e s →
        cfg.minRecordTime ≤ e ∧ cfg.silenceLimit ≤ s) ∧
    (∀ (cfg : Config) (rs ls : ℚ) (p : Poll) (rest : List Poll) (chunk : Frame),
        p.recordingFlag = true → p.chunks.getLast? = some chunk →
        cfg.minRecordTime ≤ p.now - rs →
        cfg.silenceLimit ≤ p.now - lastSoundUpd cfg ls p.now chunk →
        recordingWorkerLoop cfg rs ls (p :: rest) =
          .normalStop (p.now - rs) (p.now - lastSoundUpd cfg ls p.now chunk)) :=
  ⟨fun _ _ ls e s polls _ h => workerLoop_normalStop_bounds polls ls e s h,
   fun _ _ _ _ _ _ hf hl hmin hsil => workerLoop_stops_now hf hl hmin hsil⟩

/-- Witness for C3: with `min_record_time = 10` and `silence_limit = 2`,
a poll at the exact boundary (`elapsed = 10`, last sound at `t = 8`, the
last chunk silent so `silence_elapsed = 2`) stops the recording — both
comparisons are inclusive. -/
theorem c3_termination_iff_witness :
    recordingWorkerLoop defaultConfig 0 8 [⟨10, [[0]], true⟩] =
      .normalStop (10 - 0) (10 - lastSoundUpd defaultConfig 8 10 [0]) := by
  apply c3_termination_iff.2 defaultConfig 0 8 ⟨10, [[0]], true⟩ [] [0] rfl rfl
  · show defaultConfig.minRecordTime ≤ 10 - 0
    norm_num [defaultConfig]
  · show defaultConfig.silenceLimit ≤ 10 - lastSoundUpd defaultConfig 8 10 [0]
    have : lastSoundUpd defaultConfig 8 10 [0] = 8 := by
      simp [lastSoundUpd, ampGt, volumeNormSq, defaultConfig]
    rw [this]
    norm_num [defaultConfig]

/-- C4 counterexample: the claim says construction fails on invalid
thresholds or durations.  In the code no such rejection exists:
`AwarenessConfig` construction succeeds while loading an invalid
configuration (negative `amplitude_threshold`, negative
`record_seconds`), keeping the invalid values, and `AudioMonitor`
construction succeeds even when its Whisper-model load fails. -/
theorem c4_counterexample_invalid_config_accepted :
    awarenessConfigInit (some (.ok ⟨some (-1000), some (-5)⟩)) =
      .ok ⟨-1000, -5⟩ ∧
    exceptIsOk (audioMonitorInit false) = true :=
  ⟨rfl, rfl⟩

/-- C4 amended: no construction-time validation exists.
`AudioMonitor.__init__` takes no threshold or duration configuration at
all — every such setting is a hardcoded constant (and those constants are
valid: positive thresholds with silence below trigger, positive
durations, positive capacities) — and it never fails; `AwarenessConfig`
construction likewise never fails, whatever is loaded. -/
theorem c4_amended_no_construction_validation :
    (∀ b : Bool, audioMonitorInit b = .ok (defaultConfig, b)) ∧
    (∀ loaded : Option (Except Unit AwOverrides),
        exceptIsOk (awarenessConfigInit loaded) = true) ∧
    0 < defaultConfig.silenceThresholdSq ∧
    defaultConfig.silenceThresholdSq ≤ defaultConfig.thresholdSq ∧
    0 < defaultConfig.minRecordTime ∧
    0 < defaultConfig.silenceLimit ∧
    0 < defaultConfig.bufferCapacity ∧
    0 < defaultConfig.maxRecordings := by
  refine ⟨fun b => rfl, fun loaded => ?_, ?_, ?_, ?_, ?_, ?_, ?_⟩
  · cases loaded with
    | none => rfl
    | some r => cases r <;> rfl
  · norm_num [defaultConfig]
  · norm_num [defaultConfig]
  · norm_num [defaultConfig]
  · norm_num [defaultConfig]
  · norm_num [defaultConfig]
  · norm_num [defaultConfig]

/-- C5 counterexample: with pre-buffer capacity 1 holding sample `1`, a
triggering frame `[2]` seeds the session with `[2]` alone — the push of
the frame into the full ring dropped the stored sample, and the frame is
not appended a second time after the snapshot.  The seed differs both
from "snapshot before the push + frame" (`[1, 2]`) and from "snapshot
after the push + frame" (`[2, 2]`), so under either reading the claimed
seed equation fails. -/
theorem c5_counterexample_seed_not_snapshot_plus_frame :
    (audioCallbackListening { defaultConfig with bufferCapacity := 1 }
        [1] [] [2]).isRecording = true ∧
    flattenChunks (audioCallbackListening { defaultConfig with bufferCapacity := 1 }
        [1] [] [2]).recordedChunks ≠ [1, 2] ∧
    flattenChunks (audioCallbackListening { defaultConfig with bufferCapacity := 1 }
        [1] [] [2]).recordedChunks ≠ [2, 2] := by
  have ht : ampGt (volumeNormSq [2])
      ({ defaultConfig with bufferCapacity := 1 } : Config).thresholdSq = true := by
    simp [ampGt, volumeNormSq, defaultConfig]
    norm_num
  refine ⟨?_, ?_, ?_⟩
  · simp [audioCallbackListening, ht]
  · simp [audioCallbackListening, ht, ringExtend, ringPush, flattenChunks]
  · simp [audioCallbackListening, ht, ringExtend, ringPush, flattenChunks]

/-- C5 amended: on a triggering frame the transition to RECORDING does
occur and a worker is started, but the session is seeded with the
pre-roll buffer contents AFTER the triggering frame's samples were pushed
(the push at line 133 precedes the trigger check, and the frame is not
appended again).  When the buffer has room for the frame this equals the
pre-push snapshot followed by the triggering frame — the claimed shape;
at capacity, the oldest samples are dropped first. -/
theorem c5_amended_trigger_seed :
    ∀ (cfg : Config) (pre : List ℚ) (chunks : List Frame) (frame : Frame),
      ampGt (volumeNormSq frame) cfg.thresholdSq = true →
      (audioCallbackListening cfg pre chunks frame).isRecording = true ∧
      (audioCallbackListening cfg pre chunks frame).workerStarted = true ∧
      (audioCallbackListening cfg pre chunks frame).recordedChunks =
        chunks ++ (ringExtend cfg.bufferCapacity pre frame).map (fun s => [s]) ∧
      (pre.length + frame.length ≤ cfg.bufferCapacity →
        flattenChunks (audioCallbackListening cfg pre chunks frame).recordedChunks =
          flattenChunks chunks ++ (pre ++ frame)) := by
  intro cfg pre chunks frame htrig
  unfold audioCallbackListening
  rw [if_pos htrig]
  refine ⟨rfl, rfl, rfl, ?_⟩
  intro hle
  rw [flattenChunks_append_singletons, ringExtend_of_le frame pre hle]

/-- Witness for the amended C5: an empty pre-buffer and the loud frame
`[1]` seed the session with exactly `[1]`. -/
theorem c5_amended_trigger_seed_witness :
    flattenChunks (audioCallbackListening defaultConfig [] [] [1]).recordedChunks =
      flattenChunks [] ++ ([] ++ [1]) :=
  (c5_amended_trigger_seed defaultConfig [] [] [1]
    (by simp [ampGt, volumeNormSq, defaultConfig]; norm_num)).2.2.2 (by decide)

/-- C6: a flush attempted with zero accumulated frames writes no file,
appends nothing to the retention store, invokes no completion callback,
leaves the state untouched, and the worker's `finally` still clears
`is_recording` — the monitor returns to LISTENING. -/
theorem c6_empty_flush_skips_persistence :
    ∀ (cfg : Config) (env : SaveEnv) (path : String) (st : MonitorState),
      st.recordedChunks = [] →
      saveRecording cfg env path st = .ok (st, noEvents) ∧
      workerFinalize cfg env path st = ({ st with isRecording := false }, noEvents) := by
  intro cfg env path st h
  have h2 : st.recordedChunks.isEmpty = true := by rw [h]; rfl
  constructor
  · unfold saveRecording
    rw [if_pos h2]
  · unfold workerFinalize saveRecording
    rw [if_pos h2]

/-- Witness for C6 at a concrete empty session. -/
theorem c6_empty_flush_skips_persistence_witness :
    saveRecording defaultConfig ⟨true, true, true, true, some "t", true⟩ "p"
        ⟨[], ⟨6, []⟩, true⟩ = .ok (⟨[], ⟨6, []⟩, true⟩, noEvents) ∧
    workerFinalize defaultConfig ⟨true, true, true, true, some "t", true⟩ "p"
        ⟨[], ⟨6, []⟩, true⟩ = (⟨[], ⟨6, []⟩, false⟩, noEvents) :=
  c6_empty_flush_skips_persistence defaultConfig
    ⟨true, true, true, true, some "t", true⟩ "p" ⟨[], ⟨6, []⟩, true⟩ rfl

/-- C7: `transcribe_recording` never propagates an exception: every
internal failure (model error — including an absent model — or
transcript-file write error) is absorbed to `none`, and on success it
returns the stripped concatenation of the segment texts.  As a total
function into `Option String`, the embedding has no failure channel at
all, mirroring the `try`/`except` that encloses the entire body. -/
theorem c7_transcription_absorbs_failures :
    ∀ (env : TranscribeEnv),
      (transcribeFails env → transcribeRecording env = none) ∧
      (∀ segs : List Segment, env.modelResult = .ok segs → env.fileWriteOk = true →
        transcribeRecording env = some (fullTranscript segs).trim) := by
  intro env
  rcases env with ⟨mr, fw⟩
  constructor
  · intro hf
    cases mr with
    | error e => rfl
    | ok segs =>
      cases fw with
      | false => simp [transcribeRecording]
      | true =>
        exfalso
        rcases hf with ⟨e, he⟩ | hwf
        · exact absurd he (by simp)
        · exact absurd hwf (by simp)
  · intro segs hm hw
    subst hw
    cases mr with
    | error e => exact absurd hm (by simp)
    | ok segs2 =>
      have h2 : segs2 = segs := by simpa using hm
      subst h2
      rfl

/-- Witness for C7: a failing model yields `none`; a successful
transcription of one segment yields its stripped text. -/
theorem c7_transcription_absorbs_failures_witness :
    transcribeRecording ⟨.error (), true⟩ = none ∧
    transcribeRecording ⟨.ok [⟨0, 1, "hi"⟩], true⟩ =
      some (fullTranscript [⟨0, 1, "hi"⟩]).trim :=
  ⟨(c7_transcription_absorbs_failures ⟨.error (), true⟩).1 (Or.inl ⟨(), rfl⟩),
   (c7_transcription_absorbs_failures ⟨.ok [⟨0, 1, "hi"⟩], true⟩).2
     [⟨0, 1, "hi"⟩] rfl rfl⟩

/-- C8 counterexample: the claim defines the empty frame's amplitude to
be zero, but the code computes `0.0 / 0.0`, which is NaN on IEEE doubles,
not zero. -/
theorem c8_counterexample_empty_frame_not_zero :
    volumeNormSq [] ≠ Amplitude.val 0 := by
  decide

/-- C8 amended: level detection raises no exception on any frame — it is
total — but the empty frame's amplitude is NaN (`0.0/0.0`), not zero;
since every IEEE comparison against NaN is false, an empty frame can
never exceed a threshold.  Every non-empty frame gets a well-defined
nonnegative (squared) amplitude. -/
theorem c8_amended_level_detection_total :
    volumeNormSq [] = Amplitude.nan ∧
    (∀ t : ℚ, ampGt (volumeNormSq []) t = false) ∧
    (∀ f : Frame, f ≠ [] → ∃ q : ℚ, volumeNormSq f = .val q ∧ 0 ≤ q) := by
  refine ⟨rfl, fun t => rfl, fun f hf => ?_⟩
  have hlen : f.length ≠ 0 := by
    intro h0
    exact hf (List.length_eq_zero.mp h0)
  refine ⟨(f.map (fun s => s * s)).sum / (f.length : ℚ), ?_, ?_⟩
  · unfold volumeNormSq
    rw [if_neg hlen]
  · apply div_nonneg
    · apply List.sum_nonneg
      intro x hx
      simp only [List.mem_map] at hx
      obtain ⟨s, _, rfl⟩ := hx
      exact mul_self_nonneg s
    · exact_mod_cast Nat.zero_le f.length

/-- Witness for the amended C8 at the one-sample frame `[1]`. -/
theorem c8_amended_level_detection_total_witness :
    ∃ q : ℚ, volumeNormSq [1] = .val q ∧ 0 ≤ q :=
  c8_amended_level_detection_total.2.2 [1] (by decide)

/-- C9: the retention store's length never exceeds `max_recordings`: each
mutation (a `deque(maxlen=max_recordings)` append, or a
`cleanup_old_recordings` pass) preserves `len ≤ max_recordings`, and any
sequence of such mutations from the freshly-constructed empty store
satisfies the bound when it returns — in particular after every prefix of
the sequence, each prefix being such a sequence itself. -/
theorem c9_retention_bounded :
    (∀ (m : ℕ) (st : Retention) (op : StoreOp),
        st.maxlen = m → st.entries.length ≤ m →
        (applyStoreOp m st op).1.entries.length ≤ m ∧
        (applyStoreOp m st op).1.maxlen = m) ∧
    (∀ (m : ℕ) (ops : List StoreOp),
        (applyStoreOps m ops).entries.length ≤ m) := by
  have step : ∀ (m : ℕ) (st : Retention) (op : StoreOp),
      st.maxlen = m → st.entries.length ≤ m →
      (applyStoreOp m st op).1.entries.length ≤ m ∧
      (applyStoreOp m st op).1.maxlen = m := by
    intro m st op hm hl
    cases op with
    | append p =>
      have hb : st.entries.length ≤ st.maxlen := by rw [hm]; exact hl
      constructor
      · show (dequeAppend st p).entries.length ≤ m
        rw [← hm]
        exact dequeAppend_length_le p hb
      · show (dequeAppend st p).maxlen = m
        rw [dequeAppend_maxlen, hm]

    | cleanup =>
      constructor
      · show ((applyStoreOp m st .cleanup).1).entries.length ≤ m
        simp [applyStoreOp, cleanupOldRecordings_of_le hl]
        exact hl
      · simp [applyStoreOp, cleanupOldRecordings_of_le hl, hm]
  have fold : ∀ (m : ℕ) (ops : List StoreOp) (st : Retention),
      st.maxlen = m → st.entries.length ≤ m →
      (ops.foldl (fun st op => (applyStoreOp m st op).1) st).entries.length ≤ m := by
    intro m ops
    induction ops with
    | nil => intro st _ hl; exact hl
    | cons op rest ih =>
      intro st hm hl
      have h1 := step m st op hm hl
      exact ih _ h1.2 h1.1
  exact ⟨step, fun m ops => fold m ops ⟨m, []⟩ rfl (by simp)⟩

/-- Witness for C9: appending to a full store of capacity 2 keeps the
length at 2. -/
theorem c9_retention_bounded_witness :
    (applyStoreOp 2 ⟨2, ["a", "b"]⟩ (.append "c")).1.entries.length ≤ 2 ∧
    (applyStoreOp 2 ⟨2, ["a", "b"]⟩ (.append "c")).1.maxlen = 2 :=
  c9_retention_bounded.1 2 ⟨2, ["a", "b"]⟩ (.append "c") rfl (by decide)

/-- C10: whenever `save_recording` returns (normally — the only
exception that can escape it is the temp-file creation, which precedes
the `try`), the accumulated chunk list is empty: the empty-session branch
returns with the already-empty list, and both the success path and the
caught-exception path reset `recorded_chunks` to `[]` at line 284.
Consequently a second flush with no new audio persists nothing and
invokes no callback. -/
theorem c10_save_resets_chunks :
    ∀ (cfg : Config) (env : SaveEnv) (path : String) (st st1 : MonitorState)
      (ev : SaveEvents),
      saveRecording cfg env path st = .ok (st1, ev) →
      st1.recordedChunks = [] ∧
      (∀ (env2 : SaveEnv) (path2 : String),
        saveRecording cfg env2 path2 st1 = .ok (st1, noEvents)) := by
  intro cfg env path st st1 ev h
  have hmain : st1.recordedChunks = [] := by
    unfold saveRecording at h
    split at h
    · rename_i hemp
      simp only [Except.ok.injEq, Prod.mk.injEq] at h
      obtain ⟨h1, _⟩ := h
      rw [← h1]
      cases hx : st.recordedChunks with
      | nil => rfl
      | cons a t => rw [hx] at hemp; exact absurd hemp (by simp)
    · split at h
      · exact absurd h (by simp)
      · split at h
        · simp only [Except.ok.injEq, Prod.mk.injEq] at h
          obtain ⟨h1, _⟩ := h
          rw [← h1]
        · simp only [Except.ok.injEq, Prod.mk.injEq] at h
          obtain ⟨h1, _⟩ := h
          rw [← h1]
  refine ⟨hmain, fun env2 path2 => ?_⟩
  unfold saveRecording
  rw [if_pos (show st1.recordedChunks.isEmpty = true by rw [hmain]; rfl)]

/-- Witness for C10: a successful one-chunk flush returns with an empty
chunk list, and a repeated flush on the result is a no-op. -/
theorem c10_save_resets_chunks_witness :
    (⟨[], ⟨6, ["p"]⟩, true⟩ : MonitorState).recordedChunks = [] ∧
    (∀ (env2 : SaveEnv) (path2 : String),
      saveRecording defaultConfig env2 path2 ⟨[], ⟨6, ["p"]⟩, true⟩ =
        .ok (⟨[], ⟨6, ["p"]⟩, true⟩, noEvents)) :=
  c10_save_resets_chunks defaultConfig ⟨true, true, true, true, some "t", true⟩ "p"
    ⟨[[1]], ⟨6, []⟩, true⟩ ⟨[], ⟨6, ["p"]⟩, true⟩
    ⟨true, ((flattenChunks [[1]]).length : ℚ) / defaultConfig.sampleRate, [],
      true, some "t"⟩ rfl

end AudioMonitor
